import Mathlib

/-!
Verification development for the SignalSight GPS proximity core.

The Python source is shallowly embedded in Lean:
* `traffic_light_db.py` — geometry helpers and the spatial radius query
  (`_haversine_distance`, `_get_bounding_box`, `get_nearby_lights_fast`),
  with Python floats idealized as real numbers;
* `gps_system.py` — the NMEA position tracker (`_process_gga_message`,
  `_process_vtg_message`, `get_current_position`), the start/stop lifecycle,
  the zone classifier (`_get_distance_zone`) and the actuator message
  (`_send_arduino_alert`); float fields of the tracker are idealized as
  rationals (the tracker only stores, compares with zero, and divides by 3.6);
* the heading-cone variant of the query is modelled from the spec, because the
  shipped `traffic_light_db.py` does not contain it (see the doc comments).

Mutation and aliasing of the shared fix object are made explicit with a small
heap: `TrackerState.heap` is the list of all fix objects ever allocated and
`TrackerState.cur` is the reference (index) held in `self._position`.
-/

open Classical

/-! ## Geometry utilities and the spatial query (`traffic_light_db.py`) -/

/-- Earth's radius in meters, WGS84 mean radius (`EARTH_RADIUS_M` in the source). -/
noncomputable def EARTH_RADIUS_M : ℝ := 6371008.8

/-- Python's `math.radians`. -/
noncomputable def radians (x : ℝ) : ℝ := x * Real.pi / 180

/-- Python's `math.degrees`. -/
noncomputable def degrees (x : ℝ) : ℝ := x * 180 / Real.pi

/-- `TrafficLightDB._haversine_distance`: great-circle distance in meters. -/
noncomputable def _haversine_distance (lat1 lon1 lat2 lon2 : ℝ) : ℝ :=
  let lat1_rad := radians lat1
  let lat2_rad := radians lat2
  let dlat := radians (lat2 - lat1)
  let dlon := radians (lon2 - lon1)
  let a := Real.sin (dlat / 2) ^ 2 +
           Real.cos lat1_rad * Real.cos lat2_rad * Real.sin (dlon / 2) ^ 2
  let c := 2 * Real.arcsin (Real.sqrt a)
  EARTH_RADIUS_M * c

/-- `TrafficLightDB._get_bounding_box`: planar bounding box
`(min_lat, max_lat, min_lon, max_lon)` using 111,320 m per degree of latitude
and `111,320 * cos(lat)` m per degree of longitude. -/
noncomputable def _get_bounding_box (lat lon radius_m : ℝ) : ℝ × ℝ × ℝ × ℝ :=
  let lat_delta := radius_m / 111320
  let lon_delta := radius_m / (111320 * Real.cos (radians lat))
  (lat - lat_delta, lat + lat_delta, lon - lon_delta, lon + lon_delta)

/-- A row of the `traffic_lights` table: `(id, lat, lon)`. -/
structure LightRow where
  id : ℕ
  lat : ℝ
  lon : ℝ

/-- The `TrafficLight` dataclass: a light together with its distance from the
query point. -/
structure TrafficLight where
  id : ℕ
  lat : ℝ
  lon : ℝ
  distance : ℝ

/-- The `ValueError`s raised by `get_nearby_lights_fast`'s input validation. -/
inductive QueryError where
  | invalidLatitude
  | invalidLongitude
  | invalidRadius
deriving DecidableEq

/-- Propositional filter; embeds both the SQL `BETWEEN` candidate selection
and the Python `if distance <= radius_m` loop of the source. -/
noncomputable def filterP {α : Type} (p : α → Prop) : List α → List α
  | [] => []
  | a :: l => if p a then a :: filterP p l else filterP p l

/-- Ordering used by `results.sort(key=lambda x: x.distance)`. -/
def distLE (a b : TrafficLight) : Prop := a.distance ≤ b.distance

instance : IsTotal TrafficLight distLE := ⟨fun a b => le_total a.distance b.distance⟩

instance : IsTrans TrafficLight distLE := ⟨fun _ _ _ h1 h2 => le_trans h1 h2⟩

/-- The bounding-box candidate pre-filter of `get_nearby_lights_fast`
(the SQL `WHERE lat BETWEEN ? AND ? AND lon BETWEEN ? AND ?`). -/
noncomputable def boxCandidates (ds : List LightRow) (lat lon radius_m : ℝ) : List LightRow :=
  let bb := _get_bounding_box lat lon radius_m
  filterP (fun r => bb.1 ≤ r.lat ∧ r.lat ≤ bb.2.1 ∧ bb.2.2.1 ≤ r.lon ∧ r.lon ≤ bb.2.2.2) ds

/-- The exact-distance filter of `get_nearby_lights_fast`: each candidate
with its haversine distance, kept only if within the radius. -/
noncomputable def inRadiusLights (ds : List LightRow) (lat lon radius_m : ℝ) : List TrafficLight :=
  filterP (fun t => t.distance ≤ radius_m)
    ((boxCandidates ds lat lon radius_m).map
      (fun r => ⟨r.id, r.lat, r.lon, _haversine_distance lat lon r.lat r.lon⟩))

/-- `TrafficLightDB.get_nearby_lights_fast(lat, lon, radius_m)`: validate the
inputs, pre-filter by bounding box, filter by exact haversine distance, sort
ascending by distance.  Raised `ValueError`s are embedded as `Except.error`. -/
noncomputable def get_nearby_lights_fast (ds : List LightRow) (lat lon radius_m : ℝ) :
    Except QueryError (List TrafficLight) :=
  if lat < -90 ∨ 90 < lat then .error .invalidLatitude
  else if lon < -180 ∨ 180 < lon then .error .invalidLongitude
  else if radius_m ≤ 0 then .error .invalidRadius
  else .ok (List.insertionSort distLE (inRadiusLights ds lat lon radius_m))

/-! ## Zone classification (`gps_system.py`) -/

/-- `GPSTrafficLightSystem.ZONE_IMMINENT`. -/
noncomputable def ZONE_IMMINENT : ℝ := 50

/-- `GPSTrafficLightSystem.ZONE_NEAR`. -/
noncomputable def ZONE_NEAR : ℝ := 100

/-- `GPSTrafficLightSystem.ZONE_APPROACHING`. -/
noncomputable def ZONE_APPROACHING : ℝ := 250

/-- `GPSTrafficLightSystem._get_distance_zone`: zone name for a distance. -/
noncomputable def _get_distance_zone (distance_m : ℝ) : String :=
  if distance_m ≤ ZONE_IMMINENT then "imminent"
  else if distance_m ≤ ZONE_NEAR then "near"
  else if distance_m ≤ ZONE_APPROACHING then "approaching"
  else "far"

/-! ## Heading-cone query, modelled from the spec

`gps_system.py`, `test_heading_filter.py` and `demo_heading_filter.py` all call
`get_nearby_lights_fast(lat, lon, radius, heading=…, heading_cone=…)` and
`TrafficLightDB._calculate_bearing`, but the shipped `traffic_light_db.py`
contains neither the two keyword parameters nor `_calculate_bearing`; that
revision of the file is missing from the repository.  The definitions below
model the missing code from the spec's words (section 4.1 and step (4) of the
`query` contract in section 4.2). -/

/-- Two-argument arctangent with range `(-pi, pi]`, the standard `atan2`. -/
noncomputable def atan2 (y x : ℝ) : ℝ :=
  if 0 < x then Real.arctan (y / x)
  else if x < 0 then
    (if 0 ≤ y then Real.arctan (y / x) + Real.pi else Real.arctan (y / x) - Real.pi)
  else
    (if 0 < y then Real.pi / 2 else if y < 0 then -(Real.pi / 2) else 0)

/-- Normalize an angle in degrees into `[0, 360)`. -/
noncomputable def norm360 (d : ℝ) : ℝ := d - 360 * ⌊d / 360⌋

/-- Modelled from the spec: `bearing(lat1, lon1, lat2, lon2) -> degrees in
[0,360)`, the initial bearing from point 1 to point 2 by the standard
two-argument-arctangent bearing formula, 0° = north, 90° = east.  This is the
`TrafficLightDB._calculate_bearing` method missing from the shipped
`traffic_light_db.py`. -/
noncomputable def _calculate_bearing (lat1 lon1 lat2 lon2 : ℝ) : ℝ :=
  let lat1_rad := radians lat1
  let lat2_rad := radians lat2
  let dlon := radians (lon2 - lon1)
  let y := Real.sin dlon * Real.cos lat2_rad
  let x := Real.cos lat1_rad * Real.sin lat2_rad -
           Real.sin lat1_rad * Real.cos lat2_rad * Real.cos dlon
  norm360 (degrees (atan2 y x))

/-- Modelled from the spec: `angular_difference(a, b) -> degrees in [0,180]`,
the minimal absolute angular separation between two headings, accounting for
wraparound at 360°. -/
noncomputable def angular_difference (a b : ℝ) : ℝ :=
  let d := norm360 (a - b)
  min d (360 - d)

/-- Modelled from the spec: `get_nearby_lights_fast` with the optional
`heading`/`heading_cone` arguments supplied (the overload used by
`gps_system.py._query_loop` but missing from the shipped
`traffic_light_db.py`).  Same validation, bounding box and exact-distance
filter as the radius query; then, per step (4) of the spec's query contract,
candidates whose bearing from the query point differs from `heading` by more
than `heading_cone` are discarded; finally the survivors are sorted ascending
by distance. -/
noncomputable def get_nearby_lights_heading (ds : List LightRow)
    (lat lon radius_m heading heading_cone : ℝ) :
    Except QueryError (List TrafficLight) :=
  if lat < -90 ∨ 90 < lat then .error .invalidLatitude
  else if lon < -180 ∨ 180 < lon then .error .invalidLongitude
  else if radius_m ≤ 0 then .error .invalidRadius
  else .ok (List.insertionSort distLE
    (filterP (fun t => angular_difference (_calculate_bearing lat lon t.lat t.lon) heading ≤ heading_cone)
      (inRadiusLights ds lat lon radius_m)))

/-! ## Position tracker (`gps_system.py`)

Float fields are idealized as rationals: the tracker only stores values,
compares them with zero (Python truthiness) and divides by 3.6, all exact on
`ℚ`.  Object identity of the shared `self._position` is modelled by a heap:
`process_gga` allocates a fresh `GPSPosition`, `process_vtg` mutates the
current one in place, `get_current_position` returns the current reference. -/

/-- The fields of a parsed `pynmea2.GGA` message used by the tracker.
`gps_qual` is the NMEA fix-quality digit (`none` when the field is absent),
`altitude` is `none` when absent, `num_sats` is `none` when absent or
unparseable (the source swallows the `ValueError` and keeps 0). -/
structure GGAMessage where
  latitude : ℚ
  longitude : ℚ
  gps_qual : Option ℕ
  altitude : Option ℚ
  num_sats : Option ℕ
deriving DecidableEq

/-- The fields of a parsed `pynmea2.VTG` message used by the tracker. -/
structure VTGMessage where
  spd_over_grnd_kmph : Option ℚ
  true_track : Option ℚ
deriving DecidableEq

/-- The `GPSPosition` dataclass. -/
structure GPSPosition where
  latitude : ℚ
  longitude : ℚ
  altitude : Option ℚ
  speed : Option ℚ
  heading : Option ℚ
  satellites : ℕ
  fix_quality : ℕ
  timestamp : ℚ
deriving DecidableEq

/-- Tracker state: `heap` lists every `GPSPosition` object ever allocated (in
allocation order) and `cur` is the reference stored in `self._position`
(`none` when `self._position is None`). -/
structure TrackerState where
  heap : List GPSPosition
  cur : Option ℕ
deriving DecidableEq

/-- The tracker state right after `__init__`: `self._position = None`. -/
def initState : TrackerState := ⟨[], none⟩

/-- Read the fields of a fix object through a reference previously obtained
from `get_current_position`. -/
def derefPosition (st : TrackerState) (r : ℕ) : Option GPSPosition := st.heap[r]?

/-- `GPSTrafficLightSystem.get_current_position`: returns `self._position`
itself — the shared reference, not a copy. -/
def get_current_position (st : TrackerState) : Option ℕ := st.cur

/-- The value of the current fix as seen at this instant (dereference of
`self._position`). -/
def currentFix (st : TrackerState) : Option GPSPosition :=
  st.cur.bind (fun i => st.heap[i]?)

/-- The fresh `GPSPosition` object `_process_gga_message` allocates: current
frame's coordinates, altitude and satellite count (with Python truthiness:
a falsy — absent or 0.0 — altitude stays `None`), the previous fix's speed and
heading carried forward, and the `time.time()` capture timestamp `t`. -/
def ggaPosition (st : TrackerState) (m : GGAMessage) (t : ℚ) : GPSPosition :=
  { latitude := m.latitude
    longitude := m.longitude
    altitude := m.altitude.bind (fun a => if a = 0 then none else some a)
    speed := (currentFix st).bind (fun p => p.speed)
    heading := (currentFix st).bind (fun p => p.heading)
    satellites := m.num_sats.getD 0
    fix_quality := m.gps_qual.getD 0
    timestamp := t }

/-- `GPSTrafficLightSystem._process_gga_message`.  Discards the frame when
`latitude` or `longitude` is falsy (0.0 or missing — pynmea2 yields 0.0 for an
empty field) or when the fix quality (`int(msg.gps_qual) if msg.gps_qual else
0`) is 0; otherwise allocates a new `GPSPosition` and publishes it, replacing
the stored reference. -/
def process_gga (st : TrackerState) (m : GGAMessage) (t : ℚ) : TrackerState :=
  if m.latitude = 0 ∨ m.longitude = 0 then st
  else if m.gps_qual.getD 0 = 0 then st
  else ⟨st.heap ++ [ggaPosition st m t], some st.heap.length⟩

/-- The in-place field updates `_process_vtg_message` performs on the current
fix object: speed is overwritten with `spd_over_grnd_kmph / 3.6` only when the
frame's value is truthy (present and nonzero), heading with `true_track` under
the same condition. -/
def vtgUpdate (p : GPSPosition) (m : VTGMessage) : GPSPosition :=
  let p1 := match m.spd_over_grnd_kmph with
    | some s => if s = 0 then p else { p with speed := some (s / 3.6) }
    | none => p
  match m.true_track with
  | some h => if h = 0 then p1 else { p1 with heading := some h }
  | none => p1

/-- `GPSTrafficLightSystem._process_vtg_message`: no-op when no fix exists;
otherwise mutates the current fix object in place (same heap cell). -/
def process_vtg (st : TrackerState) (m : VTGMessage) : TrackerState :=
  match st.cur with
  | none => st
  | some i =>
    match st.heap[i]? with
    | none => st
    | some p => ⟨st.heap.set i (vtgUpdate p m), st.cur⟩

/-- One sensor frame as dispatched by `_gps_reader_loop`. -/
inductive SensorFrame where
  | gga (m : GGAMessage) (t : ℚ)
  | vtg (m : VTGMessage)

/-- Dispatch of one parsed frame in `_gps_reader_loop`. -/
def processFrame (st : TrackerState) : SensorFrame → TrackerState
  | .gga m t => process_gga st m t
  | .vtg m => process_vtg st m

/-- Process a whole sequence of sensor frames. -/
def runFrames (st : TrackerState) (fs : List SensorFrame) : TrackerState :=
  fs.foldl processFrame st

/-- A frame that publishes a fix: a GGA frame with truthy latitude and
longitude and nonzero fix quality. -/
def publishesFix : SensorFrame → Prop
  | .gga m _ => ¬(m.latitude = 0 ∨ m.longitude = 0) ∧ m.gps_qual.getD 0 ≠ 0
  | .vtg _ => False

/-! ## Pipeline lifecycle (`gps_system.py` `start`/`stop`)

`start` acquires, in source order: the database handle, the GPS serial port,
the (optional) Arduino serial port, then sets `self._running = True` and
launches the two threads.  I/O acquisition outcomes are abstracted as booleans
in `StartEnv`; everything else follows the source's control flow, including
the `except: self.stop(); return False` rollback. -/

/-- Which resources of `GPSTrafficLightSystem` are currently held/open. -/
structure SystemResources where
  running : Bool
  db : Bool
  gps_serial : Bool
  arduino_serial : Bool
  gps_thread : Bool
  query_thread : Bool
deriving DecidableEq

/-- Environment for one `start()` attempt: whether each acquisition succeeds,
and whether an Arduino port is configured at all (`arduino_port` truthy). -/
structure StartEnv where
  db_ok : Bool
  gps_ok : Bool
  arduino_port : Bool
  arduino_ok : Bool
deriving DecidableEq

/-- The freshly constructed system: nothing acquired, not running. -/
def notStarted : SystemResources :=
  { running := false, db := false, gps_serial := false, arduino_serial := false,
    gps_thread := false, query_thread := false }

/-- `GPSTrafficLightSystem.stop`: clears `self._running`, joins both threads
(they observe the flag and exit), closes the open serial ports and the
database.  Total — every guard in the source tolerates a resource that was
never acquired, so `stop` never fails. -/
def stop (_s : SystemResources) : SystemResources :=
  { running := false, db := false, gps_serial := false, arduino_serial := false,
    gps_thread := false, query_thread := false }

/-- `GPSTrafficLightSystem.start`: returns the new resource state and the
boolean result.  Fails immediately when already running; on any acquisition
failure runs `self.stop()` and returns `False`. -/
def start (env : StartEnv) (s : SystemResources) : SystemResources × Bool :=
  if s.running then (s, false)
  else if ¬env.db_ok then (stop s, false)
  else
    let s1 := { s with db := true }
    if ¬env.gps_ok then (stop s1, false)
    else
      let s2 := { s1 with gps_serial := true }
      if env.arduino_port ∧ ¬env.arduino_ok then (stop s2, false)
      else
        let s3 := if env.arduino_port then { s2 with arduino_serial := true } else s2
        ({ s3 with running := true, gps_thread := true, query_thread := true }, true)

/-! ## Actuator message (`gps_system.py` `_send_arduino_alert`) -/

/-- The `ProximityAlert` dataclass built in `_query_loop`. -/
structure ProximityAlert where
  light_id : ℕ
  distance_m : ℝ
  lat : ℝ
  lon : ℝ
  zone : String

/-- Decimal digit character, as produced by Python's string formatting. -/
def digitChar : ℕ → Char
  | 0 => '0' | 1 => '1' | 2 => '2' | 3 => '3' | 4 => '4'
  | 5 => '5' | 6 => '6' | 7 => '7' | 8 => '8' | _ => '9'

/-- Decimal rendering helper (`fuel` bounds the recursion; it is always called
with enough fuel to exhaust the number). -/
def natCharsAux : ℕ → ℕ → List Char
  | 0, _ => []
  | _ + 1, 0 => []
  | fuel + 1, n => natCharsAux fuel (n / 10) ++ [digitChar (n % 10)]

/-- Python's `str` of a nonnegative integer (the `{alert.light_id}` field). -/
def natChars (n : ℕ) : List Char :=
  if n = 0 then ['0'] else natCharsAux (n + 1) n

/-- Python's `f"{x:.1f}"` for the nonnegative distances the pipeline produces,
idealized over the reals with round-half-up ties (binary-float tie behavior is
not observable in any claim). -/
noncomputable def fmt1 (x : ℝ) : List Char :=
  let t := (⌊x * 10 + 1 / 2⌋).toNat
  natChars (t / 10) ++ ['.', digitChar (t % 10)]

/-- `GPSTrafficLightSystem._send_arduino_alert`: the exact bytes written to
the Arduino serial port for one alert,
`f"LIGHT,{alert.light_id},{alert.distance_m:.1f},{alert.zone}\n"`. -/
noncomputable def _send_arduino_alert (a : ProximityAlert) : List Char :=
  "LIGHT,".data ++ natChars a.light_id ++ [','] ++ fmt1 a.distance_m ++ [','] ++
    a.zone.data ++ ['\n']

/-- The alert `_query_loop` builds from the closest light of a query result:
`ProximityAlert(light_id=closest.id, distance_m=closest.distance, lat=…,
lon=…, zone=self._get_distance_zone(closest.distance))`. -/
noncomputable def buildProximityAlert (closest : TrafficLight) : ProximityAlert :=
  { light_id := closest.id, distance_m := closest.distance,
    lat := closest.lat, lon := closest.lon,
    zone := _get_distance_zone closest.distance }

/-- The actuator message one `_query_loop` tick emits, as a function of the
current position snapshot and the closest light.  The position (and in
particular its `speed` field) is in scope in `_query_loop` but does not flow
into the message. -/
noncomputable def queryTickMessage (_position : GPSPosition) (closest : TrafficLight) :
    List Char :=
  _send_arduino_alert (buildProximityAlert closest)

/-! ## Helper lemmas -/

theorem mem_filterP {α : Type} {p : α → Prop} {a : α} :
    ∀ {l : List α}, a ∈ filterP p l ↔ a ∈ l ∧ p a := by
  intro l
  induction l with
  | nil => simp [filterP]
  | cons b l ih =>
    by_cases hb : p b
    · rw [filterP, if_pos hb]
      simp only [List.mem_cons, ih]
      constructor
      · rintro (rfl | ⟨hm, hp⟩)
        · exact ⟨Or.inl rfl, hb⟩
        · exact ⟨Or.inr hm, hp⟩
      · rintro ⟨rfl | hm, hp⟩
        · exact Or.inl rfl
        · exact Or.inr ⟨hm, hp⟩
    · rw [filterP, if_neg hb]
      simp only [List.mem_cons, ih]
      constructor
      · rintro ⟨hm, hp⟩
        exact ⟨Or.inr hm, hp⟩
      · rintro ⟨rfl | hm, hp⟩
        · exact absurd hp hb
        · exact ⟨hm, hp⟩

theorem vtgUpdate_fix_quality (p : GPSPosition) (m : VTGMessage) :
    (vtgUpdate p m).fix_quality = p.fix_quality := by
  unfold vtgUpdate
  rcases m with ⟨s, h⟩
  rcases s with _ | s <;> rcases h with _ | h <;> simp only <;> split <;> try split
  all_goals rfl

theorem process_vtg_cur_none (st : TrackerState) (m : VTGMessage)
    (h : st.cur = none) : process_vtg st m = st := by
  simp only [process_vtg, h]

theorem process_vtg_cur_some (st : TrackerState) (m : VTGMessage) (i : ℕ)
    (p : GPSPosition) (hc : st.cur = some i) (hg : st.heap[i]? = some p) :
    process_vtg st m = ⟨st.heap.set i (vtgUpdate p m), st.cur⟩ := by
  simp only [process_vtg, hc, hg]

theorem process_gga_quality_pos (st : TrackerState) (m : GGAMessage) (t : ℚ)
    (hst : ∀ p ∈ st.heap, 0 < p.fix_quality) :
    ∀ p ∈ (process_gga st m t).heap, 0 < p.fix_quality := by
  unfold process_gga
  split
  · exact hst
  · split
    · exact hst
    · rename_i hq
      intro p hp
      simp only [List.mem_append, List.mem_singleton] at hp
      rcases hp with hp | rfl
      · exact hst p hp
      · exact Nat.pos_of_ne_zero hq

theorem process_vtg_quality_pos (st : TrackerState) (m : VTGMessage)
    (hst : ∀ p ∈ st.heap, 0 < p.fix_quality) :
    ∀ p ∈ (process_vtg st m).heap, 0 < p.fix_quality := by
  rcases hc : st.cur with _ | i
  · rw [process_vtg_cur_none st m hc]
    exact hst
  · rcases hg : st.heap[i]? with _ | q
    · simp only [process_vtg, hc, hg]
      exact hst
    · rw [process_vtg_cur_some st m i q hc hg]
      intro p hp
      rcases List.mem_or_eq_of_mem_set hp with hp | rfl
      · exact hst p hp
      · rw [vtgUpdate_fix_quality]
        rw [List.getElem?_eq_some_iff] at hg
        obtain ⟨hlt, rfl⟩ := hg
        exact hst _ (List.getElem_mem hlt)

theorem runFrames_quality_pos (fs : List SensorFrame) :
    ∀ st : TrackerState, (∀ p ∈ st.heap, 0 < p.fix_quality) →
      ∀ p ∈ (runFrames st fs).heap, 0 < p.fix_quality := by
  induction fs with
  | nil => intro st hst; exact hst
  | cons f fs ih =>
    intro st hst
    rcases f with ⟨m, t⟩ | m
    · exact ih _ (process_gga_quality_pos st m t hst)
    · exact ih _ (process_vtg_quality_pos st m hst)

theorem currentFix_mem {st : TrackerState} {p : GPSPosition}
    (h : currentFix st = some p) : p ∈ st.heap := by
  unfold currentFix at h
  rcases hc : st.cur with _ | i
  · rw [hc] at h; simp at h
  · rw [hc] at h
    simp only [Option.some_bind] at h
    rw [List.getElem?_eq_some_iff] at h
    obtain ⟨hlt, rfl⟩ := h
    exact List.getElem_mem hlt

theorem process_gga_quality_zero (st : TrackerState) (m : GGAMessage) (t : ℚ)
    (h : m.gps_qual.getD 0 = 0) : process_gga st m t = st := by
  unfold process_gga
  by_cases h1 : m.latitude = 0 ∨ m.longitude = 0
  · rw [if_pos h1]
  · rw [if_neg h1, if_pos h]

theorem processFrame_gga (st : TrackerState) (m : GGAMessage) (t : ℚ) :
    processFrame st (.gga m t) = process_gga st m t := rfl

theorem processFrame_vtg (st : TrackerState) (m : VTGMessage) :
    processFrame st (.vtg m) = process_vtg st m := rfl

theorem runFrames_no_publish (fs : List SensorFrame) :
    ∀ st : TrackerState, st.cur = none → (∀ f ∈ fs, ¬ publishesFix f) →
      runFrames st fs = st := by
  induction fs with
  | nil => intro st _ _; rfl
  | cons f fs ih =>
    intro st hcur hall
    have hstep : processFrame st f = st := by
      rcases f with ⟨m, t⟩ | m
      · have hnp := hall _ (List.mem_cons_self _ _)
        rw [processFrame_gga]
        by_cases hll : m.latitude = 0 ∨ m.longitude = 0
        · unfold process_gga
          rw [if_pos hll]
        · exact process_gga_quality_zero st m t
            (Classical.byContradiction fun hq => hnp ⟨hll, hq⟩)
      · rw [processFrame_vtg]
        exact process_vtg_cur_none st m hcur
    show runFrames (processFrame st f) fs = st
    rw [hstep]
    exact ih st hcur (fun g hg => hall g (List.mem_cons_of_mem _ hg))

/-! ## Claim theorems -/

/-- C8: zone classification is a pure function of distance with the stated
boundaries: 50.0 → imminent, 50.0001 and 100.0 → near, 100.0001 and 250.0 →
approaching, 250.0001 → far. -/
theorem zone_boundaries :
    _get_distance_zone 50 = "imminent" ∧
    _get_distance_zone 50.0001 = "near" ∧
    _get_distance_zone 100 = "near" ∧
    _get_distance_zone 100.0001 = "approaching" ∧
    _get_distance_zone 250 = "approaching" ∧
    _get_distance_zone 250.0001 = "far" := by
  refine ⟨?_, ?_, ?_, ?_, ?_, ?_⟩ <;>
    simp only [_get_distance_zone, ZONE_IMMINENT, ZONE_NEAR, ZONE_APPROACHING]
  · rw [if_pos (by norm_num)]
  · rw [if_neg (by norm_num), if_pos (by norm_num)]
  · rw [if_neg (by norm_num), if_pos (by norm_num)]
  · rw [if_neg (by norm_num), if_neg (by norm_num), if_pos (by norm_num)]
  · rw [if_neg (by norm_num), if_neg (by norm_num), if_pos (by norm_num)]
  · rw [if_neg (by norm_num), if_neg (by norm_num), if_neg (by norm_num)]

/-- C10: a GGA frame whose parsed latitude or longitude is exactly 0 is
discarded before the fix-quality check — the state is unchanged, whatever the
frame's fix quality, so no fix is ever published from such a frame. -/
theorem gga_zero_coordinate_discarded (st : TrackerState) (m : GGAMessage) (t : ℚ)
    (h : m.latitude = 0 ∨ m.longitude = 0) : process_gga st m t = st := by
  unfold process_gga
  rw [if_pos h]

/-- Witness for C10: a frame on the equator (latitude 0) with fix quality 1 is
discarded and the tracker still reports no fix. -/
theorem gga_zero_coordinate_discarded_witness :
    process_gga initState ⟨0, 10, some 1, none, none⟩ 0 = initState ∧
    currentFix initState = none :=
  ⟨gga_zero_coordinate_discarded initState ⟨0, 10, some 1, none, none⟩ 0 (Or.inl rfl),
   rfl⟩

/-- C3: a quality-0 position frame is never published.  Starting from the
fresh tracker and processing any sequence of sensor frames: the published fix
(if any) has `fix_quality > 0`; a quality-0 GGA frame leaves any tracker state
unchanged (so it never overwrites a previously published fix); and the current
position stays `none` until some publishing (quality > 0) position frame has
been processed. -/
theorem quality_zero_never_published (fs : List SensorFrame) :
    (∀ p : GPSPosition, currentFix (runFrames initState fs) = some p → 0 < p.fix_quality) ∧
    (∀ (st : TrackerState) (m : GGAMessage) (t : ℚ),
      m.gps_qual.getD 0 = 0 → process_gga st m t = st) ∧
    ((∀ f ∈ fs, ¬ publishesFix f) → currentFix (runFrames initState fs) = none) := by
  refine ⟨?_, process_gga_quality_zero, ?_⟩
  · intro p hp
    refine runFrames_quality_pos fs initState ?_ p (currentFix_mem hp)
    intro q hq
    simp [initState] at hq
  · intro hall
    rw [runFrames_no_publish fs initState rfl hall]
    rfl

/-- Witness for C3: a GGA frame with quality indicator 0 followed by a VTG
frame leaves the tracker with no current fix. -/
theorem quality_zero_never_published_witness :
    currentFix (runFrames initState
      [SensorFrame.gga ⟨45, -75, some 0, none, some 7⟩ 1,
       SensorFrame.vtg ⟨some 10, some 20⟩]) = none :=
  (quality_zero_never_published _).2.2 (by
    intro f hf
    simp only [List.mem_cons, List.not_mem_nil, or_false] at hf
    rcases hf with rfl | rfl
    · exact fun h => h.2 rfl
    · exact fun h => h)

theorem start_failure_rollback (env : StartEnv) (s : SystemResources)
    (hrun : s.running = false) (hfail : (start env s).2 = false) :
    (start env s).1 = notStarted := by
  unfold start at hfail ⊢
  rw [hrun] at hfail ⊢
  simp only [Bool.false_eq_true, if_false] at hfail ⊢
  split_ifs at hfail ⊢ <;> simp_all [stop, notStarted]

/-- C7: pipeline lifecycle.  `start()` on an already-running system returns
failure and changes nothing; a failed `start()` from the not-running state
leaves every resource released (the `NotStarted` state), from which a later
`start()` under an environment where every acquisition succeeds returns
success; and `stop()` is idempotent (safe to call repeatedly, including after
a failed start). -/
theorem start_stop_lifecycle :
    (∀ (env : StartEnv) (s : SystemResources), s.running = true →
      start env s = (s, false)) ∧
    (∀ (env : StartEnv) (s : SystemResources), s.running = false →
      (start env s).2 = false → (start env s).1 = notStarted) ∧
    (∀ (env env' : StartEnv) (s : SystemResources), s.running = false →
      (start env s).2 = false →
      env'.db_ok = true → env'.gps_ok = true → env'.arduino_ok = true →
      (start env' (start env s).1).2 = true) ∧
    (∀ s : SystemResources, stop (stop s) = stop s) := by
  refine ⟨?_, start_failure_rollback, ?_, fun s => rfl⟩
  · intro env s h
    unfold start
    rw [if_pos h]
  · intro env env' s hrun hfail hdb hgps hard
    rw [start_failure_rollback env s hrun hfail]
    simp [start, notStarted, hdb, hgps, hard]

/-- Witness for C7: with the database acquisition failing, `start()` from the
fresh state reports failure and leaves the `NotStarted` state; a following
`start()` with all acquisitions succeeding reports success; starting a running
system changes nothing. -/
theorem start_stop_lifecycle_witness :
    (start ⟨false, true, true, true⟩ notStarted).1 = notStarted ∧
    (start ⟨true, true, true, true⟩
      (start ⟨false, true, true, true⟩ notStarted).1).2 = true ∧
    start ⟨true, true, true, true⟩
      { running := true, db := true, gps_serial := true, arduino_serial := true,
        gps_thread := true, query_thread := true } =
      ({ running := true, db := true, gps_serial := true, arduino_serial := true,
         gps_thread := true, query_thread := true }, false) :=
  ⟨start_stop_lifecycle.2.1 ⟨false, true, true, true⟩ notStarted rfl rfl,
   start_stop_lifecycle.2.2.1 ⟨false, true, true, true⟩ ⟨true, true, true, true⟩
     notStarted rfl rfl rfl rfl rfl,
   start_stop_lifecycle.1 ⟨true, true, true, true⟩ _ rfl⟩

/-- C6: the radius query fails with `ValueError` exactly when
`lat ∉ [-90,90]`, `lon ∉ [-180,180]` or `radius_m ≤ 0`; the rejection is
independent of the dataset (it happens before any dataset access); and on
every in-range input the query returns a result — no other exception
escapes. -/
theorem query_validation (ds : List LightRow) (lat lon radius_m : ℝ) :
    ((∃ e, get_nearby_lights_fast ds lat lon radius_m = .error e) ↔
      ((lat < -90 ∨ 90 < lat) ∨ (lon < -180 ∨ 180 < lon) ∨ radius_m ≤ 0)) ∧
    (∀ (e : QueryError) (ds' : List LightRow),
      get_nearby_lights_fast ds lat lon radius_m = .error e →
      get_nearby_lights_fast ds' lat lon radius_m = .error e) ∧
    (¬((lat < -90 ∨ 90 < lat) ∨ (lon < -180 ∨ 180 < lon) ∨ radius_m ≤ 0) →
      ∃ l, get_nearby_lights_fast ds lat lon radius_m = .ok l) := by
  unfold get_nearby_lights_fast
  by_cases h1 : lat < -90 ∨ 90 < lat
  · rw [if_pos h1]
    refine ⟨⟨fun _ => Or.inl h1, fun _ => ⟨_, rfl⟩⟩, ?_, fun hv => absurd (Or.inl h1) hv⟩
    intro e ds' he
    rw [if_pos h1]
    exact he
  · rw [if_neg h1]
    by_cases h2 : lon < -180 ∨ 180 < lon
    · rw [if_pos h2]
      refine ⟨⟨fun _ => Or.inr (Or.inl h2), fun _ => ⟨_, rfl⟩⟩, ?_,
              fun hv => absurd (Or.inr (Or.inl h2)) hv⟩
      intro e ds' he
      rw [if_neg h1, if_pos h2]
      exact he
    · rw [if_neg h2]
      by_cases h3 : radius_m ≤ 0
      · rw [if_pos h3]
        refine ⟨⟨fun _ => Or.inr (Or.inr h3), fun _ => ⟨_, rfl⟩⟩, ?_,
                fun hv => absurd (Or.inr (Or.inr h3)) hv⟩
        intro e ds' he
        rw [if_neg h1, if_neg h2, if_pos h3]
        exact he
      · rw [if_neg h3]
        refine ⟨⟨?_, ?_⟩, ?_, fun _ => ⟨_, rfl⟩⟩
        · rintro ⟨e, he⟩
          simp at he
        · intro h
          rcases h with h | h | h
          · exact absurd h h1
          · exact absurd h h2
          · exact absurd h h3
        · intro e ds' he
          simp at he

/-- Witness for C6: latitude 100 is rejected on any dataset, and a valid
query point produces a result. -/
theorem query_validation_witness :
    (∃ e, get_nearby_lights_fast [] 100 0 500 = .error e) ∧
    (∃ l, get_nearby_lights_fast [] 0 0 500 = .ok l) :=
  ⟨(query_validation [] 100 0 500).1.mpr (Or.inl (Or.inr (by norm_num))),
   (query_validation [] 0 0 500).2.2 (by norm_num)⟩

theorem process_gga_publishes (st : TrackerState) (m : GGAMessage) (t : ℚ)
    (h1 : ¬(m.latitude = 0 ∨ m.longitude = 0)) (h2 : m.gps_qual.getD 0 ≠ 0) :
    currentFix (process_gga st m t) = some (ggaPosition st m t) := by
  unfold process_gga
  rw [if_neg h1, if_neg h2]
  unfold currentFix
  simp [List.getElem?_concat_length]

/-- Counterexample for C4: `current()` does not return an immutable copy.
After a GGA frame publishes a fix, the caller-visible reference is index 0 and
the fix read through it has `speed = none`; processing one VTG frame with
speed 7.2 km/h mutates that same object in place — the previously obtained
reference now reads `speed = some 2` (m/s).  The claim required every field of
a returned Fix to be unchanged by subsequent frames. -/
theorem snapshot_mutated_counterexample :
    get_current_position (process_gga initState ⟨45, -75, some 1, none, some 8⟩ 0) = some 0 ∧
    (derefPosition (process_gga initState ⟨45, -75, some 1, none, some 8⟩ 0) 0).bind
      GPSPosition.speed = none ∧
    (derefPosition (process_vtg (process_gga initState ⟨45, -75, some 1, none, some 8⟩ 0)
        ⟨some 7.2, some 90⟩) 0).bind GPSPosition.speed = some 2 := by
  refine ⟨rfl, rfl, ?_⟩
  have h36 : (7.2 : ℚ) / 3.6 = 2 := by norm_num
  have h72 : ¬((7.2 : ℚ) = 0) := by norm_num
  simp [process_gga, process_vtg, vtgUpdate, currentFix, derefPosition, initState,
    ggaPosition, h36, h72]

/-- C4 amended: `current()` returns the shared reference to the last published
fix, not a copy.  A position (GGA) frame never mutates an existing fix object
(every previously allocated heap cell reads unchanged — GGA allocates a fresh
object); a velocity (VTG) frame mutates the current fix object in place: the
cell the caller's earlier reference points at now reads the updated
speed/heading, every other cell is untouched, and the current reference is
unchanged. -/
theorem snapshot_reference_semantics :
    (∀ st : TrackerState, get_current_position st = st.cur) ∧
    (∀ (st : TrackerState) (m : GGAMessage) (t : ℚ) (i : ℕ), i < st.heap.length →
      derefPosition (process_gga st m t) i = derefPosition st i) ∧
    (∀ (st : TrackerState) (m : VTGMessage) (i : ℕ) (p : GPSPosition),
      st.cur = some i → derefPosition st i = some p →
      derefPosition (process_vtg st m) i = some (vtgUpdate p m) ∧
      (∀ j, j ≠ i → derefPosition (process_vtg st m) j = derefPosition st j) ∧
      get_current_position (process_vtg st m) = st.cur) := by
  refine ⟨fun st => rfl, ?_, ?_⟩
  · intro st m t i hi
    unfold process_gga
    by_cases h1 : m.latitude = 0 ∨ m.longitude = 0
    · rw [if_pos h1]
    · rw [if_neg h1]
      by_cases h2 : m.gps_qual.getD 0 = 0
      · rw [if_pos h2]
      · rw [if_neg h2]
        unfold derefPosition
        exact List.getElem?_append_left hi
  · intro st m i p hc hg
    rw [process_vtg_cur_some st m i p hc hg]
    have hi : i < st.heap.length := (List.getElem?_eq_some_iff.mp hg).1
    refine ⟨?_, ?_, rfl⟩
    · unfold derefPosition
      exact List.getElem?_set_self hi
    · intro j hj
      unfold derefPosition
      exact List.getElem?_set_ne (fun h => hj h.symm)

/-- Witness for C4 (amended): a second GGA frame does not disturb the fix
object allocated by the first. -/
theorem snapshot_reference_semantics_witness :
    derefPosition (process_gga (process_gga initState ⟨45, -75, some 1, none, some 8⟩ 0)
      ⟨46, -76, some 2, none, some 9⟩ 1) 0 =
    derefPosition (process_gga initState ⟨45, -75, some 1, none, some 8⟩ 0) 0 :=
  snapshot_reference_semantics.2.1 _ ⟨46, -76, some 2, none, some 9⟩ 1 0 (by
    simp [process_gga, initState])

/-- Counterexample for C5: a VTG frame whose `true_track` is 0.0 (due north)
does not update the heading.  With a current fix whose heading is 45, the
frame `⟨speed 7.2 km/h, track 0⟩` yields heading `some 45`, not the frame's
track value `some 0` that the claim requires, even though the same frame's
speed field is applied (`some 2` m/s). -/
theorem vtg_zero_field_counterexample :
    (currentFix (process_vtg (process_vtg
        (process_gga initState ⟨45, -75, some 1, none, some 8⟩ 0)
        ⟨none, some 45⟩) ⟨some 7.2, some 0⟩)).map GPSPosition.heading = some (some 45) ∧
    (currentFix (process_vtg (process_vtg
        (process_gga initState ⟨45, -75, some 1, none, some 8⟩ 0)
        ⟨none, some 45⟩) ⟨some 7.2, some 0⟩)).map GPSPosition.speed = some (some 2) ∧
    some (some (45 : ℚ)) ≠ some (some (0 : ℚ)) := by
  have h36 : (7.2 : ℚ) / 3.6 = 2 := by norm_num
  have h72 : ¬((7.2 : ℚ) = 0) := by norm_num
  refine ⟨?_, ?_, by simp⟩ <;>
    simp [process_gga, process_vtg, vtgUpdate, currentFix, initState, ggaPosition, h36, h72]

/-- C5 amended: on a VTG frame with no current fix the state is unchanged;
otherwise the current fix is updated in place, where the update touches only
the speed and heading fields — speed becomes the frame's km/h value divided by
3.6 exactly when that value is present and nonzero (a falsy 0.0 or absent
value leaves the old speed), heading becomes the frame's true-track exactly
when present and nonzero — and every other field is unchanged.  Consequently a
publishing position frame followed by a velocity frame with nonzero speed `s`
yields a fix with the position frame's coordinates and speed `s / 3.6`. -/
theorem vtg_update_fields (st : TrackerState) (m : VTGMessage) :
    (currentFix st = none → process_vtg st m = st) ∧
    (∀ p : GPSPosition, currentFix st = some p →
      currentFix (process_vtg st m) = some (vtgUpdate p m)) ∧
    (∀ p : GPSPosition,
      (vtgUpdate p m).latitude = p.latitude ∧
      (vtgUpdate p m).longitude = p.longitude ∧
      (vtgUpdate p m).altitude = p.altitude ∧
      (vtgUpdate p m).satellites = p.satellites ∧
      (vtgUpdate p m).fix_quality = p.fix_quality ∧
      (vtgUpdate p m).timestamp = p.timestamp ∧
      (vtgUpdate p m).speed = (match m.spd_over_grnd_kmph with
        | some s => if s = 0 then p.speed else some (s / 3.6)
        | none => p.speed) ∧
      (vtgUpdate p m).heading = (match m.true_track with
        | some h => if h = 0 then p.heading else some h
        | none => p.heading)) ∧
    (∀ (mg : GGAMessage) (t s : ℚ), ¬(mg.latitude = 0 ∨ mg.longitude = 0) →
      mg.gps_qual.getD 0 ≠ 0 → s ≠ 0 →
      currentFix (process_vtg (process_gga st mg t) ⟨some s, none⟩) =
        some { ggaPosition st mg t with speed := some (s / 3.6) }) := by
  refine ⟨?_, ?_, ?_, ?_⟩
  · intro h
    rcases hc : st.cur with _ | i
    · exact process_vtg_cur_none st m hc
    · unfold currentFix at h
      rw [hc] at h
      simp only [Option.some_bind] at h
      simp only [process_vtg, hc, h]
  · intro p hp
    rcases hc : st.cur with _ | i
    · unfold currentFix at hp
      rw [hc] at hp
      simp at hp
    · unfold currentFix at hp
      rw [hc] at hp
      simp only [Option.some_bind] at hp
      rw [process_vtg_cur_some st m i p hc hp]
      unfold currentFix
      simp only [hc, Option.some_bind]
      exact List.getElem?_set_self (List.getElem?_eq_some_iff.mp hp).1
  · intro p
    unfold vtgUpdate
    rcases m with ⟨ms, mh⟩
    rcases ms with _ | s <;> rcases mh with _ | h <;>
      simp only <;> refine ⟨?_, ?_, ?_, ?_, ?_, ?_, ?_, ?_⟩ <;>
      first
        | trivial
        | (split <;> rfl)
        | (split <;> split <;> rfl)
  · intro mg t s h1 h2 hs
    have hg := process_gga_publishes st mg t h1 h2
    rcases hc : (process_gga st mg t).cur with _ | i
    · unfold currentFix at hg
      rw [hc] at hg
      simp at hg
    · unfold currentFix at hg
      rw [hc] at hg
      simp only [Option.some_bind] at hg
      rw [process_vtg_cur_some _ _ i _ hc hg]
      unfold currentFix
      simp only [hc, Option.some_bind]
      rw [List.getElem?_set_self (List.getElem?_eq_some_iff.mp hg).1]
      simp [vtgUpdate, hs]

/-- Witness for C5 (amended): scenario C — a publishing position frame
followed by a velocity frame with speed 7.2 km/h yields a fix with the
position frame's coordinates and speed 2 m/s. -/
theorem vtg_update_fields_witness :
    currentFix (process_vtg (process_gga initState ⟨45, -75, some 1, none, some 8⟩ 0)
      ⟨some 7.2, none⟩) =
      some { ggaPosition initState ⟨45, -75, some 1, none, some 8⟩ 0 with
             speed := some (7.2 / 3.6) } :=
  (vtg_update_fields initState ⟨some 7.2, none⟩).2.2.2
    ⟨45, -75, some 1, none, some 8⟩ 0 7.2
    (by norm_num) (by simp) (by norm_num)

theorem digitChar_mem (d : ℕ) : digitChar d ∈ "0123456789".data := by
  unfold digitChar
  split <;> decide

theorem natCharsAux_mem (fuel : ℕ) :
    ∀ (n : ℕ) (c : Char), c ∈ natCharsAux fuel n → c ∈ "0123456789".data := by
  induction fuel with
  | zero => intro n c hc; simp [natCharsAux] at hc
  | succ fuel ih =>
    intro n c hc
    rcases n with _ | n
    · simp [natCharsAux] at hc
    · simp only [natCharsAux, List.mem_append, List.mem_singleton] at hc
      rcases hc with hc | rfl
      · exact ih _ _ hc
      · exact digitChar_mem _

theorem natChars_mem (n : ℕ) (c : Char) (hc : c ∈ natChars n) :
    c ∈ "0123456789".data := by
  unfold natChars at hc
  split at hc
  · simp at hc; subst hc; decide
  · exact natCharsAux_mem _ _ _ hc

theorem fmt1_mem (x : ℝ) (c : Char) (hc : c ∈ fmt1 x) : c ∈ "0123456789.".data := by
  have hsub : ∀ c ∈ ("0123456789".data), c ∈ ("0123456789.".data) := by decide
  unfold fmt1 at hc
  simp only [List.mem_append, List.mem_cons, List.mem_singleton,
    List.not_mem_nil, or_false] at hc
  rcases hc with hc | rfl | rfl
  · exact hsub _ (natChars_mem _ _ hc)
  · decide
  · exact hsub _ (digitChar_mem _)

theorem zone_token_cases (d : ℝ) :
    _get_distance_zone d = "imminent" ∨ _get_distance_zone d = "near" ∨
    _get_distance_zone d = "approaching" ∨ _get_distance_zone d = "far" := by
  unfold _get_distance_zone
  split_ifs <;> simp

theorem zone_chars (d : ℝ) (c : Char) (hc : c ∈ (_get_distance_zone d).data) :
    c.toNat < 128 ∧ ¬(c = '\n') := by
  rcases zone_token_cases d with h | h | h | h <;>
    (rw [h] at hc; revert hc; revert c; decide)

/-- C9 amended: every actuator message for an alert is the single
newline-terminated ASCII line `LIGHT,<id>,<distance:.1f>,<zone>` — it carries
the tag, the light id, the distance and the zone token, and no speed value:
the message is the same for any two position snapshots, whatever their
speeds. -/
theorem actuator_message_format (pos1 pos2 : GPSPosition) (closest : TrafficLight) :
    queryTickMessage pos1 closest =
      "LIGHT,".data ++ natChars closest.id ++ [','] ++ fmt1 closest.distance ++
        [','] ++ (_get_distance_zone closest.distance).data ++ ['\n'] ∧
    (queryTickMessage pos1 closest).getLast? = some '\n' ∧
    (queryTickMessage pos1 closest).count '\n' = 1 ∧
    (∀ c ∈ queryTickMessage pos1 closest, c.toNat < 128) ∧
    queryTickMessage pos1 closest = queryTickMessage pos2 closest := by
  have hmsg : queryTickMessage pos1 closest =
      "LIGHT,".data ++ natChars closest.id ++ [','] ++ fmt1 closest.distance ++
        [','] ++ (_get_distance_zone closest.distance).data ++ ['\n'] := rfl
  refine ⟨hmsg, ?_, ?_, ?_, rfl⟩
  · rw [hmsg, List.getLast?_append]
    rfl
  · rw [hmsg]
    have hid : List.count '\n' (natChars closest.id) = 0 := by
      rw [List.count_eq_zero]
      intro h
      have h2 := natChars_mem _ _ h
      revert h2
      decide
    have hfmt : List.count '\n' (fmt1 closest.distance) = 0 := by
      rw [List.count_eq_zero]
      intro h
      have h2 := fmt1_mem _ _ h
      revert h2
      decide
    have hzone : List.count '\n' ((_get_distance_zone closest.distance).data) = 0 := by
      rw [List.count_eq_zero]
      intro h
      exact (zone_chars _ _ h).2 rfl
    have hLIGHT : List.count '\n' ("LIGHT,".data) = 0 := by decide
    have hcomma : List.count '\n' ([','] : List Char) = 0 := by decide
    have hnl : List.count '\n' (['\n'] : List Char) = 1 := by decide
    simp only [List.count_append, hid, hfmt, hzone, hLIGHT, hcomma, hnl]
  · rw [hmsg]
    intro c hc
    simp only [List.mem_append, List.mem_singleton] at hc
    rcases hc with ((((((hc | hc) | hc) | hc) | hc) | hc) | rfl)
    · revert hc; revert c; decide
    · have h2 := natChars_mem _ _ hc
      clear hc
      revert h2; revert c; decide
    · subst hc; decide
    · have h2 := fmt1_mem _ _ hc
      clear hc
      revert h2; revert c; decide
    · subst hc; decide
    · exact (zone_chars _ _ hc).1
    · decide

/-- Counterexample for C9: the actuator line contains no speed value.  Two
pipeline states whose position snapshots differ only in speed (0 m/s versus
55 m/s) produce the identical message, and the message for light id 7 at
distance 123.4 m is exactly `LIGHT,7,123.4,approaching\n` — tag, id, distance
and zone token only, no speed field, while the claim requires a speed value in
every message. -/
theorem actuator_message_no_speed_counterexample :
    queryTickMessage ⟨45, -75, none, some 0, none, 8, 1, 0⟩ ⟨7, 45.001, -75, 123.4⟩ =
      queryTickMessage ⟨45, -75, none, some 55, none, 8, 1, 0⟩ ⟨7, 45.001, -75, 123.4⟩ ∧
    queryTickMessage ⟨45, -75, none, some 0, none, 8, 1, 0⟩ ⟨7, 45.001, -75, 123.4⟩ =
      "LIGHT,7,123.4,approaching\n".data := by
  refine ⟨rfl, ?_⟩
  have hfloor : ⌊(123.4 : ℝ) * 10 + 1 / 2⌋ = 1234 := by
    rw [Int.floor_eq_iff]
    norm_num
  have hzone : _get_distance_zone 123.4 = "approaching" := by
    unfold _get_distance_zone ZONE_IMMINENT ZONE_NEAR ZONE_APPROACHING
    rw [if_neg (by norm_num), if_neg (by norm_num), if_pos (by norm_num)]
  show _send_arduino_alert _ = _
  unfold _send_arduino_alert buildProximityAlert
  simp only [fmt1, hfloor, hzone]
  decide

/-! ## Geometry helper lemmas -/

theorem filterP_singleton_pos {α : Type} (p : α → Prop) (a : α) (h : p a) :
    filterP p [a] = [a] := by
  unfold filterP
  rw [if_pos h]
  rfl

theorem filterP_singleton_neg {α : Type} (p : α → Prop) (a : α) (h : ¬ p a) :
    filterP p [a] = [] := by
  unfold filterP
  rw [if_neg h]
  rfl

/-- Along a meridian the haversine formula collapses to
`EARTH_RADIUS_M * radians (lat2 - lat1)` (for a northward difference of at
most 180°). -/
theorem haversine_meridian (lat1 lat2 lon : ℝ) (h0 : 0 ≤ lat2 - lat1)
    (h180 : lat2 - lat1 ≤ 180) :
    _haversine_distance lat1 lon lat2 lon = EARTH_RADIUS_M * radians (lat2 - lat1) := by
  have hpi := Real.pi_pos
  simp only [_haversine_distance, radians]
  have e1 : (lon - lon) * Real.pi / 180 / 2 = 0 := by
    rw [sub_self]
    ring
  have e2 : Real.sin ((lat2 - lat1) * Real.pi / 180 / 2) ^ 2 +
      Real.cos (lat1 * Real.pi / 180) * Real.cos (lat2 * Real.pi / 180) *
        Real.sin ((lon - lon) * Real.pi / 180 / 2) ^ 2 =
      Real.sin ((lat2 - lat1) * Real.pi / 180 / 2) ^ 2 := by
    rw [e1, Real.sin_zero]
    ring
  rw [e2]
  have ht0 : 0 ≤ (lat2 - lat1) * Real.pi / 180 / 2 := by
    have := mul_nonneg h0 hpi.le
    positivity
  have htle : (lat2 - lat1) * Real.pi / 180 / 2 ≤ Real.pi / 2 := by
    have h1 : (lat2 - lat1) * Real.pi ≤ 180 * Real.pi :=
      mul_le_mul_of_nonneg_right h180 hpi.le
    linarith
  have hsin0 : 0 ≤ Real.sin ((lat2 - lat1) * Real.pi / 180 / 2) :=
    Real.sin_nonneg_of_nonneg_of_le_pi ht0 (by linarith)
  rw [Real.sqrt_sq hsin0, Real.arcsin_sin (by linarith) htle]
  ring

theorem cos_radians_45_pos : 0 < Real.cos (radians 45) := by
  have hpi := Real.pi_pos
  apply Real.cos_pos_of_mem_Ioo
  constructor
  · simp only [radians]
    linarith
  · simp only [radians]
    linarith

/-- Along a meridian, looking north, the modelled bearing is 0°. -/
theorem bearing_due_north (lat1 lat2 lon : ℝ) (h0 : 0 < lat2 - lat1)
    (h180 : lat2 - lat1 < 180) :
    _calculate_bearing lat1 lon lat2 lon = 0 := by
  have hpi := Real.pi_pos
  simp only [_calculate_bearing, radians, degrees]
  have e1 : (lon - lon) * Real.pi / 180 = 0 := by
    rw [sub_self]
    ring
  rw [e1, Real.sin_zero, Real.cos_zero, zero_mul]
  have ex : Real.cos (lat1 * Real.pi / 180) * Real.sin (lat2 * Real.pi / 180) -
      Real.sin (lat1 * Real.pi / 180) * Real.cos (lat2 * Real.pi / 180) * 1 =
      Real.sin (lat2 * Real.pi / 180 - lat1 * Real.pi / 180) := by
    rw [Real.sin_sub]
    ring
  rw [ex]
  have hx : 0 < Real.sin (lat2 * Real.pi / 180 - lat1 * Real.pi / 180) := by
    apply Real.sin_pos_of_pos_of_lt_pi
    · have := mul_pos h0 hpi
      nlinarith
    · have h1 : (lat2 - lat1) * Real.pi < 180 * Real.pi :=
        mul_lt_mul_of_pos_right h180 hpi
      nlinarith
  unfold atan2
  rw [if_pos hx, zero_div, Real.arctan_zero]
  unfold norm360
  rw [zero_mul, zero_div, zero_div, Int.floor_zero]
  norm_num

theorem angular_difference_self (a : ℝ) : angular_difference a a = 0 := by
  unfold angular_difference norm360
  rw [sub_self, zero_div, Int.floor_zero]
  norm_num

theorem angular_difference_0_180 : angular_difference 0 180 = 180 := by
  unfold angular_difference norm360
  have hfloor : ⌊(0 - 180 : ℝ) / 360⌋ = -1 := by
    rw [Int.floor_eq_iff]
    constructor <;> norm_num
  rw [hfloor]
  norm_num

/-- C2 amended: for every valid input the radius query succeeds and returns
exactly the dataset records that lie inside the planar bounding box AND are
within haversine distance `radius_m`, sorted ascending by distance.  (The
bounding box is not a conservative superset of the radius — see the
counterexample — so the in-box restriction cannot be dropped.) -/
theorem radius_query_characterization (ds : List LightRow) (lat lon radius_m : ℝ)
    (h1 : -90 ≤ lat) (h2 : lat ≤ 90) (h3 : -180 ≤ lon) (h4 : lon ≤ 180)
    (h5 : 0 < radius_m) :
    ∃ l, get_nearby_lights_fast ds lat lon radius_m = .ok l ∧
      List.Sorted distLE l ∧
      ∀ t : TrafficLight, t ∈ l ↔ ∃ r ∈ ds,
        (lat - radius_m / 111320 ≤ r.lat ∧ r.lat ≤ lat + radius_m / 111320 ∧
         lon - radius_m / (111320 * Real.cos (radians lat)) ≤ r.lon ∧
         r.lon ≤ lon + radius_m / (111320 * Real.cos (radians lat))) ∧
        t = ⟨r.id, r.lat, r.lon, _haversine_distance lat lon r.lat r.lon⟩ ∧
        _haversine_distance lat lon r.lat r.lon ≤ radius_m := by
  have hv1 : ¬(lat < -90 ∨ 90 < lat) := by push_neg; exact ⟨h1, h2⟩
  have hv2 : ¬(lon < -180 ∨ 180 < lon) := by push_neg; exact ⟨h3, h4⟩
  have hv3 : ¬(radius_m ≤ 0) := not_le.mpr h5
  unfold get_nearby_lights_fast
  rw [if_neg hv1, if_neg hv2, if_neg hv3]
  refine ⟨_, rfl, List.sorted_insertionSort distLE _, ?_⟩
  intro t
  rw [(List.perm_insertionSort distLE _).mem_iff]
  unfold inRadiusLights boxCandidates
  simp only [mem_filterP, List.mem_map, _get_bounding_box]
  constructor
  · rintro ⟨⟨r, ⟨hr, hbox⟩, rfl⟩, hd⟩
    exact ⟨r, hr, hbox, rfl, hd⟩
  · rintro ⟨r, hr, hbox, rfl, hd⟩
    exact ⟨⟨r, ⟨hr, hbox⟩, rfl⟩, hd⟩

/-- Counterexample for C2: the planar pre-filter excludes an in-radius record.
Querying `(0, 0)` with radius 500 m against the single record at latitude
0.004493° returns the empty list (the record lies outside the bounding box,
whose half-height is `500 / 111320 ≈ 0.0044916°`), although the record's
haversine distance from the query point is
`6371008.8 * radians(0.004493) ≈ 499.6 m ≤ 500 m`.  The claim that the
returned set equals the set of all in-radius records — equivalently that the
box never excludes an in-radius record — is therefore false. -/
theorem bounding_box_excludes_in_radius_counterexample :
    get_nearby_lights_fast [⟨1, 0.004493, 0⟩] 0 0 500 = .ok [] ∧
    _haversine_distance 0 0 0.004493 0 ≤ 500 := by
  constructor
  · unfold get_nearby_lights_fast
    rw [if_neg (by norm_num), if_neg (by norm_num), if_neg (by norm_num)]
    have hbox : boxCandidates [⟨1, 0.004493, 0⟩] (0 : ℝ) 0 500 = [] := by
      unfold boxCandidates
      apply filterP_singleton_neg
      intro h
      have h2 := h.2.1
      simp only [_get_bounding_box] at h2
      norm_num at h2
    unfold inRadiusLights
    rw [hbox]
    rfl
  · rw [haversine_meridian 0 0.004493 0 (by norm_num) (by norm_num)]
    unfold EARTH_RADIUS_M radians
    nlinarith [Real.pi_lt_d6, Real.pi_pos]

/-- Witness for C2 (amended): the characterization applied to the
counterexample's dataset and query point. -/
theorem radius_query_characterization_witness :
    ∃ l, get_nearby_lights_fast [⟨1, 0.004493, 0⟩] 0 0 500 = .ok l ∧
      List.Sorted distLE l ∧
      ∀ t : TrafficLight, t ∈ l ↔ ∃ r ∈ [(⟨1, 0.004493, 0⟩ : LightRow)],
        ((0 : ℝ) - 500 / 111320 ≤ r.lat ∧ r.lat ≤ 0 + 500 / 111320 ∧
         0 - 500 / (111320 * Real.cos (radians 0)) ≤ r.lon ∧
         r.lon ≤ 0 + 500 / (111320 * Real.cos (radians 0))) ∧
        t = ⟨r.id, r.lat, r.lon, _haversine_distance 0 0 r.lat r.lon⟩ ∧
        _haversine_distance 0 0 r.lat r.lon ≤ 500 :=
  radius_query_characterization [⟨1, 0.004493, 0⟩] 0 0 500
    (by norm_num) (by norm_num) (by norm_num) (by norm_num) (by norm_num)

/-- Scenario B dataset: the single light ~500 m due north of the observer at
`(45, -75)` survives the box and the exact-distance filter for radius 600. -/
theorem scenario_inRadiusLights :
    inRadiusLights [⟨1, 45.0045, -75⟩] 45 (-75) 600 =
      [⟨1, 45.0045, -75, _haversine_distance 45 (-75) 45.0045 (-75)⟩] := by
  have hd : 0 < 600 / (111320 * Real.cos (radians 45)) :=
    div_pos (by norm_num) (mul_pos (by norm_num) cos_radians_45_pos)
  have hbox : boxCandidates [⟨1, 45.0045, -75⟩] 45 (-75) 600 = [⟨1, 45.0045, -75⟩] := by
    unfold boxCandidates
    apply filterP_singleton_pos
    simp only [_get_bounding_box]
    refine ⟨by norm_num, by norm_num, by linarith, by linarith⟩
  unfold inRadiusLights
  rw [hbox]
  show filterP (fun t : TrafficLight => t.distance ≤ 600)
      [(⟨1, 45.0045, -75, _haversine_distance 45 (-75) 45.0045 (-75)⟩ : TrafficLight)] =
    [(⟨1, 45.0045, -75, _haversine_distance 45 (-75) 45.0045 (-75)⟩ : TrafficLight)]
  apply filterP_singleton_pos
  show _haversine_distance 45 (-75) 45.0045 (-75) ≤ 600
  rw [haversine_meridian 45 45.0045 (-75) (by norm_num) (by norm_num)]
  unfold EARTH_RADIUS_M radians
  nlinarith [Real.pi_lt_d6, Real.pi_pos]

/-- C1: with a heading supplied, the (spec-modelled) query returns exactly the
in-radius result records whose bearing from the query point differs from the
heading by at most the cone half-width; in particular for a single record
~500 m due north of `(45, -75)`, the query with heading 0° and cone 90°
includes it and the query with heading 180° and cone 90° excludes it. -/
theorem heading_cone_filter (ds : List LightRow) (lat lon radius_m heading cone : ℝ)
    (h1 : -90 ≤ lat) (h2 : lat ≤ 90) (h3 : -180 ≤ lon) (h4 : lon ≤ 180)
    (h5 : 0 < radius_m) :
    (∃ lH lR, get_nearby_lights_heading ds lat lon radius_m heading cone = .ok lH ∧
      get_nearby_lights_fast ds lat lon radius_m = .ok lR ∧
      ∀ t : TrafficLight, t ∈ lH ↔ t ∈ lR ∧
        angular_difference (_calculate_bearing lat lon t.lat t.lon) heading ≤ cone) ∧
    get_nearby_lights_heading [⟨1, 45.0045, -75⟩] 45 (-75) 600 0 90 =
      .ok [⟨1, 45.0045, -75, _haversine_distance 45 (-75) 45.0045 (-75)⟩] ∧
    get_nearby_lights_heading [⟨1, 45.0045, -75⟩] 45 (-75) 600 180 90 = .ok [] := by
  have hv1 : ¬(lat < -90 ∨ 90 < lat) := by push_neg; exact ⟨h1, h2⟩
  have hv2 : ¬(lon < -180 ∨ 180 < lon) := by push_neg; exact ⟨h3, h4⟩
  have hv3 : ¬(radius_m ≤ 0) := not_le.mpr h5
  have hb : _calculate_bearing 45 (-75) 45.0045 (-75) = 0 :=
    bearing_due_north 45 45.0045 (-75) (by norm_num) (by norm_num)
  refine ⟨?_, ?_, ?_⟩
  · unfold get_nearby_lights_heading get_nearby_lights_fast
    rw [if_neg hv1, if_neg hv2, if_neg hv3, if_neg hv1, if_neg hv2, if_neg hv3]
    refine ⟨_, _, rfl, rfl, fun t => ?_⟩
    rw [(List.perm_insertionSort distLE _).mem_iff,
        (List.perm_insertionSort distLE _).mem_iff, mem_filterP]
  · unfold get_nearby_lights_heading
    rw [if_neg (by norm_num), if_neg (by norm_num), if_neg (by norm_num),
        scenario_inRadiusLights, filterP_singleton_pos]
    · rfl
    · show angular_difference (_calculate_bearing 45 (-75) 45.0045 (-75)) 0 ≤ 90
      rw [hb, angular_difference_self]
      norm_num
  · unfold get_nearby_lights_heading
    rw [if_neg (by norm_num), if_neg (by norm_num), if_neg (by norm_num),
        scenario_inRadiusLights, filterP_singleton_neg]
    · rfl
    · show ¬(angular_difference (_calculate_bearing 45 (-75) 45.0045 (-75)) 180 ≤ 90)
      rw [hb, angular_difference_0_180]
      norm_num

/-- Witness for C1: the characterization applied at the Scenario B query. -/
theorem heading_cone_filter_witness :
    (∃ lH lR, get_nearby_lights_heading [⟨1, 45.0045, -75⟩] 45 (-75) 600 0 90 = .ok lH ∧
      get_nearby_lights_fast [⟨1, 45.0045, -75⟩] 45 (-75) 600 = .ok lR ∧
      ∀ t : TrafficLight, t ∈ lH ↔ t ∈ lR ∧
        angular_difference (_calculate_bearing 45 (-75) t.lat t.lon) 0 ≤ 90) ∧
    get_nearby_lights_heading [⟨1, 45.0045, -75⟩] 45 (-75) 600 0 90 =
      .ok [⟨1, 45.0045, -75, _haversine_distance 45 (-75) 45.0045 (-75)⟩] ∧
    get_nearby_lights_heading [⟨1, 45.0045, -75⟩] 45 (-75) 600 180 90 = .ok [] :=
  heading_cone_filter [⟨1, 45.0045, -75⟩] 45 (-75) 600 0 90
    (by norm_num) (by norm_num) (by norm_num) (by norm_num) (by norm_num)

/-- Witness for C9 (amended): the message for a concrete alert carries exactly
one newline. -/
theorem actuator_message_format_witness :
    (queryTickMessage ⟨45, -75, none, none, none, 8, 1, 0⟩
      ⟨7, 45.001, -75, 123.4⟩).count '\n' = 1 :=
  (actuator_message_format ⟨45, -75, none, none, none, 8, 1, 0⟩
    ⟨45, -75, none, none, none, 8, 1, 0⟩ ⟨7, 45.001, -75, 123.4⟩).2.2.1
